import Mathlib

/-!
# Verification of the Icecat Streamlit helper (`app.py`)

A shallow embedding of the single-file Streamlit application that fetches an
Icecat product sheet by GTIN and renders basic info, a specification table and
media assets.  Python dictionaries whose keys may be absent are modelled as
structures with `Option` fields; a `dict[k]` access on a possibly-absent key is
a `match` whose `none` branch is an uncaught `KeyError` outcome, while
`dict.get(k, d)` is `Option.getD`.  Python string truthiness (used by `or` and
bare `if`) is modelled explicitly: `None` and `""` are falsy.  Network bytes
are abstracted by a function `fetch : String → List Nat` from URL to byte list.
-/

set_option autoImplicit false

namespace IcecatApp

/-- Configuration constant `ICECAT_USER` from `app.py`. -/
def ICECAT_USER : String := "openIcecat-live"

/-- Configuration constant `ICECAT_API` from `app.py`. -/
def ICECAT_API : String := "https://live.icecat.biz/api"

/-- The fixed language map `LANGUAGES` from `app.py`. -/
def LANGUAGES : List (String × String) :=
  [("DE", "de"), ("NL", "nl"), ("EN", "en"), ("FR", "fr")]

/-- Configuration constant `MAX_GALLERY` from `app.py` (thumbnails to keep UI light). -/
def MAX_GALLERY : Nat := 20

/-- Configuration constant `TIMEOUT` from `app.py` (Icecat call timeout, seconds). -/
def TIMEOUT : Nat := 20

/-- Python truthiness of an optional string: an absent key (`None`) and the
empty string are falsy, every other string is truthy. -/
def pyTruthy : Option String → Bool
  | none => false
  | some s => s != ""

/-- Python `a or b` where `a` is an optional string and `b` is a string. -/
def pyOrStr (a : Option String) (b : String) : String :=
  if pyTruthy a then a.getD "" else b

/-- Python `a or b` where both operands are optional strings. -/
def pyOrOpt (a b : Option String) : Option String :=
  if pyTruthy a then a else b

/-- Python `a or b` for plain strings (`""` is the only falsy string). -/
def pyOrS (a b : String) : String :=
  if a = "" then b else a

/-- Split a character list at every occurrence of `sep`, keeping empty
components (the character-level analogue of splitting a string on one
separator). -/
def splitChars (sep : Char) : List Char → List (List Char)
  | [] => [[]]
  | c :: rest =>
    if c = sep then [] :: splitChars sep rest
    else
      match splitChars sep rest with
      | [] => [[c]]
      | comp :: comps => (c :: comp) :: comps

/-- `pathlib.Path(s).name`: the final path component of `s`, i.e. the last
component after splitting on `/` and dropping empty and `.` components
(which `pathlib` normalises away); `""` when no component remains. -/
def pathName (s : String) : String :=
  let comps := (splitChars (Char.ofNat 47) s.data).map (fun cs => String.mk cs)
  (((comps.filter (fun c => c != "" && c != "."))).getLast?).getD ""

/-- The `SummaryDescription` sub-dictionary of `GeneralInfo`. -/
structure SummaryDescription where
  LongSummaryDescription : Option String
  ShortSummaryDescription : Option String
  deriving DecidableEq

/-- The `GeneralInfo` sub-dictionary of the product data.  `ProductName` and
`Brand` are accessed with `info[...]` (a `KeyError` when absent), the other
keys with `info.get(...)`. -/
structure GeneralInfo where
  ProductName : Option String
  Brand : Option String
  BrandPartCode : Option String
  SummaryDescription : Option SummaryDescription
  deriving DecidableEq

/-- The `Image` sub-dictionary: hero image URL candidates. -/
structure ImageData where
  Pic500x500 : Option String
  HighPic : Option String
  deriving DecidableEq

/-- One entry of the `Gallery` list; `pic["ThumbPic"]` and `pic["Pic"]` are
accessed unconditionally in the gallery loop. -/
structure GalleryPic where
  ThumbPic : String
  Pic : String
  deriving DecidableEq

/-- The nested `{"Name": {"Value": ...}}` dictionaries used for group and
feature names in `FeaturesGroups`. -/
structure NameValue where
  Value : String
  deriving DecidableEq

/-- A dictionary holding a `Name` key with a `Value` inside, as used by
`grp["FeatureGroup"]` and `feat["Feature"]`. -/
structure Named where
  Name : NameValue
  deriving DecidableEq

/-- One feature inside a feature group: `feat["Feature"]["Name"]["Value"]` and
`feat["PresentationValue"]`. -/
structure FeatureEntry where
  Feature : Named
  PresentationValue : String
  deriving DecidableEq

/-- One entry of the `FeaturesGroups` list. -/
structure FeaturesGroup where
  FeatureGroup : Named
  Features : List FeatureEntry
  deriving DecidableEq

/-- One entry of the `Multimedia` list: `m["IsVideo"]` is accessed
unconditionally, `m.get('Description', 'PDF')` tolerates absence. -/
structure MultimediaEntry where
  URL : String
  IsVideo : Bool
  Description : Option String
  deriving DecidableEq

/-- The nested product record `payload["data"]`.  `data["GeneralInfo"]` is a
raw access (uncaught `KeyError` when absent); the other sub-trees are read
with `data.get(...)` and a default. -/
structure ProductData where
  GeneralInfo : Option GeneralInfo
  Image : Option ImageData
  Gallery : Option (List GalleryPic)
  Multimedia : Option (List MultimediaEntry)
  FeaturesGroups : Option (List FeaturesGroup)
  deriving DecidableEq

/-- The decoded response envelope: top-level `msg` and `data` fields, either
of which may be absent. -/
structure Payload where
  msg : Option String
  data : Option ProductData
  deriving DecidableEq

/-- What the single catalog HTTP GET produces: a transport/HTTP-status
exception (`requests.get` raising or `raise_for_status`), a body-decoding
exception (`resp.json()` raising), or a decoded payload.  The string carried
by the two error cases is the Python exception text interpolated into
`f"Icecat error → {exc}"`. -/
inductive HttpResult where
  | netError (excMsg : String)
  | decodeError (excMsg : String)
  | success (payload : Payload)
  deriving DecidableEq

/-- The inputs of one render pass: the session-state `do_fetch` flag, the
selected language, the GTIN text and the behaviour of the catalog endpoint. -/
structure AppInput where
  do_fetch : Bool
  lang : String
  gtin : String
  response : HttpResult
  deriving DecidableEq

/-- One entry written into the in-memory ZIP archive by `zf.writestr`. -/
structure ZipEntry where
  name : String
  content : List Nat
  deriving DecidableEq

/-- `desc = info.get("SummaryDescription", {})` from `short_or_long_summary`:
a lookup on the defaulted empty dictionary yields `None`. -/
def summaryDesc (info : GeneralInfo) : SummaryDescription :=
  info.SummaryDescription.getD
    { LongSummaryDescription := none, ShortSummaryDescription := none }

/-- `short_or_long_summary` from `app.py`:
`desc.get("LongSummaryDescription") or desc.get("ShortSummaryDescription", "")`
on `info.get("SummaryDescription", {})`. -/
def short_or_long_summary (info : GeneralInfo) : String :=
  pyOrStr (summaryDesc info).LongSummaryDescription
    ((summaryDesc info).ShortSummaryDescription.getD "")

/-- The hero candidate:
`image_data.get("Pic500x500") or image_data.get("HighPic")`. -/
def hero (image_data : ImageData) : Option String :=
  pyOrOpt image_data.Pic500x500 image_data.HighPic

/-- The hero image actually rendered: `st.image(hero, ...)` runs only under
`if hero:`, so a falsy candidate (absent or empty) renders nothing. -/
def heroRendered (image_data : ImageData) : Option String :=
  if pyTruthy (hero image_data) then hero image_data else none

/-- The label of one PDF download button:
`f"⬇ \x7bp.get('Description','PDF') or Path(p['URL']).name\x7d"`. -/
def pdf_label (p : MultimediaEntry) : String :=
  "⬇ " ++ pyOrS (p.Description.getD "PDF") (pathName p.URL)

/-- The gallery entries actually processed:
`gallery = data.get("Gallery", [])[:MAX_GALLERY]`. -/
def galleryProcessed (data : ProductData) : List GalleryPic :=
  (data.Gallery.getD []).take MAX_GALLERY

/-- The ZIP-building loop: for each processed gallery entry, in order, one
`zf.writestr(name, requests.get(full).content)` with `name = Path(full).name`. -/
def zipOfGallery (fetch : String → List Nat) : List GalleryPic → List ZipEntry
  | [] => []
  | pic :: rest =>
      { name := pathName pic.Pic, content := fetch pic.Pic } :: zipOfGallery fetch rest

/-- The specification-table rows comprehension: one `(group name, feature
name, presentation value)` triple per feature, groups in payload order and
features in order within each group. -/
def specRows (data : ProductData) : List (String × String × String) :=
  (data.FeaturesGroups.getD []).flatMap (fun grp =>
    grp.Features.map (fun feat =>
      (grp.FeatureGroup.Name.Value, feat.Feature.Name.Value, feat.PresentationValue)))

/-- Whether the spec table is rendered: the `st.dataframe` call runs only
under `if rows:`. -/
def specTableShown (data : ProductData) : Bool :=
  !(specRows data).isEmpty

/-- The request URL built by the f-string in `app.py` (the selectbox
restricts `lang` to the keys of `LANGUAGES`, so the lookup is total there). -/
def buildUrl (lang gtin : String) : String :=
  ICECAT_API ++ "?UserName=" ++ ICECAT_USER ++ "&Language=" ++
    ((LANGUAGES.lookup lang).getD "").toUpper ++ "&GTIN=" ++ gtin

/-- The read-only page produced by a render pass that completes. -/
structure Page where
  productName : String
  vendorArticleNo : String
  brand : String
  description : String
  rows : List (String × String × String)
  tableShown : Bool
  heroImage : Option String
  gallery : List GalleryPic
  zip : Option (String × List ZipEntry)
  videos : List String
  pdfLabels : List String
  deriving DecidableEq

/-- The observable outcome of one top-to-bottom script pass. -/
inductive Outcome where
  | stoppedIdle
  | emptyGtinWarning
  | icecatError (displayed : String)
  | keyError (key : String)
  | page (p : Page)
  deriving DecidableEq

/-- `f"\x7bexc\x7d"` for the `AssertionError` raised by
`assert payload.get("msg") == "OK", payload.get("msg")`: the string form of
the envelope's `msg` value (`"None"` when the key is absent). -/
def msgStr : Option String → String
  | none => "None"
  | some m => m

/-- The three rendering sections (basic info, spec table, media), entered only
after `info = data["GeneralInfo"]` succeeded.  `info["ProductName"]` and
`info["Brand"]` are raw accesses whose `KeyError` aborts the pass uncaught;
`info.get("BrandPartCode", "")` defaults to the empty string. -/
def renderPage (gtin : String) (fetch : String → List Nat)
    (info : GeneralInfo) (data : ProductData) : Outcome :=
  match info.ProductName with
  | none => .keyError "ProductName"
  | some pname =>
    match info.Brand with
    | none => .keyError "Brand"
    | some brandName =>
      let image_data := data.Image.getD { Pic500x500 := none, HighPic := none }
      let gallery := galleryProcessed data
      let media := data.Multimedia.getD []
      .page
        { productName := pname
          vendorArticleNo := info.BrandPartCode.getD ""
          brand := brandName
          description := short_or_long_summary info
          rows := specRows data
          tableShown := specTableShown data
          heroImage := heroRendered image_data
          gallery := gallery
          zip :=
            if gallery.isEmpty then none
            else some (gtin ++ "_images.zip", zipOfGallery fetch gallery)
          videos := (media.filter (fun m => m.IsVideo)).map (fun v => v.URL)
          pdfLabels := (media.filter (fun m => !m.IsVideo)).map pdf_label }

/-- One top-to-bottom pass of the script: the `do_fetch` gate, the empty-GTIN
guard, the `try`-block around the catalog GET (transport error, HTTP status,
body decode, the `msg == "OK"` assertion and `payload["data"]` are all inside
it, collapsed to one `st.error` + `st.stop`), then `data["GeneralInfo"]`
outside the `try`, then the three sections. -/
def runApp (inp : AppInput) (fetch : String → List Nat) : Outcome :=
  if !inp.do_fetch then .stoppedIdle
  else if inp.gtin = "" then .emptyGtinWarning
  else
    match inp.response with
    | .netError m => .icecatError ("Icecat error → " ++ m)
    | .decodeError m => .icecatError ("Icecat error → " ++ m)
    | .success payload =>
      if payload.msg = some "OK" then
        match payload.data with
        | none => .icecatError ("Icecat error → " ++ "'data'")
        | some data =>
          match data.GeneralInfo with
          | none => .keyError "GeneralInfo"
          | some info => renderPage inp.gtin fetch info data
      else .icecatError ("Icecat error → " ++ msgStr payload.msg)

/-- The asset URLs fetched server-side during a completed media section:
two `requests.get(full)` per processed gallery entry (download-button data and
ZIP inclusion), then one `requests.get(p["URL"])` per PDF entry. -/
def assetCalls (data : ProductData) : List String :=
  ((galleryProcessed data).flatMap (fun pic => [pic.Pic, pic.Pic])) ++
    (((data.Multimedia.getD []).filter (fun m => !m.IsVideo)).map (fun p => p.URL))

/-- Every URL the pass issues a GET for, in order: nothing before the
`do_fetch` gate and the empty-GTIN guard pass, then the catalog URL, then the
asset fetches of a completed render. -/
def networkCalls (inp : AppInput) (fetch : String → List Nat) : List String :=
  if !inp.do_fetch then []
  else if inp.gtin = "" then []
  else
    buildUrl inp.lang inp.gtin ::
      (match runApp inp fetch with
       | .page _ =>
         (match inp.response with
          | .success payload =>
            (match payload.data with
             | some data => assetCalls data
             | none => [])
          | _ => [])
       | _ => [])

/-! ## Helper lemmas -/

/-- The ZIP loop writes exactly the per-entry `(basename, fetched bytes)` pairs. -/
theorem zipOfGallery_eq_map (fetch : String → List Nat) (l : List GalleryPic) :
    zipOfGallery fetch l =
      l.map (fun pic => { name := pathName pic.Pic, content := fetch pic.Pic }) := by
  induction l with
  | nil => rfl
  | cons pic rest ih => simp [zipOfGallery, ih]

/-- The processed gallery never exceeds `MAX_GALLERY` entries. -/
theorem galleryProcessed_length_le (data : ProductData) :
    (galleryProcessed data).length ≤ MAX_GALLERY := by
  simp [galleryProcessed]

/-! ## Claim theorems -/

/-- C1 (counterexample): with both summaries present but the long one empty
(`LongSummaryDescription = ""`, `ShortSummaryDescription = "Compact widget"`),
the rendered description is the short summary, not the long one as the claim
states for the both-present case. -/
theorem C1_counterexample :
    short_or_long_summary
      { ProductName := some "P", Brand := some "B", BrandPartCode := none,
        SummaryDescription := some
          { LongSummaryDescription := some "",
            ShortSummaryDescription := some "Compact widget" } }
      = "Compact widget" ∧ ("Compact widget" : String) ≠ "" := by
  exact ⟨rfl, by decide⟩

/-- C1 (amended): the rendered description equals the long summary when it is
present and non-empty; when the long summary is absent or empty it equals the
short summary (defaulting to `""` when that is absent); when the whole
`SummaryDescription` object is absent it equals `""`. -/
theorem C1_description_resolution (info : GeneralInfo) :
    (∀ l, (summaryDesc info).LongSummaryDescription = some l → l ≠ "" →
      short_or_long_summary info = l) ∧
    (((summaryDesc info).LongSummaryDescription = none ∨
        (summaryDesc info).LongSummaryDescription = some "") →
      short_or_long_summary info = (summaryDesc info).ShortSummaryDescription.getD "") ∧
    (info.SummaryDescription = none → short_or_long_summary info = "") := by
  refine ⟨?_, ?_, ?_⟩
  · intro l hl hne
    simp [short_or_long_summary, pyOrStr, pyTruthy, hl, hne]
  · rintro (h | h) <;> simp [short_or_long_summary, pyOrStr, pyTruthy, h]
  · intro h
    simp [short_or_long_summary, summaryDesc, pyOrStr, pyTruthy, h]

/-- C1 witness: a payload with long summary `"Long text"` renders it. -/
theorem C1_description_resolution_witness :
    short_or_long_summary
      { ProductName := none, Brand := none, BrandPartCode := none,
        SummaryDescription := some
          { LongSummaryDescription := some "Long text",
            ShortSummaryDescription := some "S" } }
      = "Long text" :=
  (C1_description_resolution _).1 "Long text" rfl (by decide)

/-- C2 (counterexample): a PDF entry with no `Description` key and URL
`https://cdn.example.com/docs/manual.pdf` gets the label `⬇ PDF`, not the
filename `manual.pdf` the claim's fallback order predicts. -/
theorem C2_counterexample :
    pdf_label
      { URL := "https://cdn.example.com/docs/manual.pdf", IsVideo := false,
        Description := none } = "⬇ PDF" ∧
    pathName "https://cdn.example.com/docs/manual.pdf" = "manual.pdf" ∧
    ("⬇ PDF" : String) ≠ "⬇ manual.pdf" := by
  exact ⟨rfl, rfl, by decide⟩

/-- C2 (amended): the PDF button label is `⬇ ` followed by the entry's
`Description` when that key is present and non-empty, by the literal `PDF`
when the key is absent, and by the filename parsed from the URL when the key
is present but empty. -/
theorem C2_pdf_label_resolution (p : MultimediaEntry) :
    (∀ d, p.Description = some d → d ≠ "" → pdf_label p = "⬇ " ++ d) ∧
    (p.Description = none → pdf_label p = "⬇ PDF") ∧
    (p.Description = some "" → pdf_label p = "⬇ " ++ pathName p.URL) := by
  refine ⟨?_, ?_, ?_⟩
  · intro d hd hne
    simp [pdf_label, pyOrS, hd, hne]
  · intro h
    simp [pdf_label, pyOrS, h]
  · intro h
    simp [pdf_label, pyOrS, h]

/-- C2 witness: a PDF entry with description `"Datasheet"` is labelled with it. -/
theorem C2_pdf_label_resolution_witness :
    pdf_label
      { URL := "https://cdn.example.com/docs/manual.pdf", IsVideo := false,
        Description := some "Datasheet" } = "⬇ Datasheet" :=
  (C2_pdf_label_resolution _).1 "Datasheet" rfl (by decide)

/-- C3 (counterexample): on an envelope with `msg = "Product not found"`, the
message displayed is `Icecat error → Product not found`, which is not equal to
the envelope's message field itself. -/
theorem C3_counterexample :
    runApp
      { do_fetch := true, lang := "EN", gtin := "0882780751682",
        response := .success { msg := some "Product not found", data := none } }
      (fun _ => []) = .icecatError "Icecat error → Product not found" ∧
    ("Icecat error → Product not found" : String) ≠ "Product not found" := by
  exact ⟨rfl, by decide⟩

/-- C3 (amended): on a decoded envelope whose `msg` field is not `"OK"`, the
pass halts before extracting product data, renders no page, and displays the
single error message `Icecat error → ` followed by the string form of the
envelope's own `msg` field. -/
theorem C3_envelope_rejection (inp : AppInput) (fetch : String → List Nat)
    (payload : Payload)
    (hf : inp.do_fetch = true) (hg : inp.gtin ≠ "")
    (hr : inp.response = .success payload) (hm : payload.msg ≠ some "OK") :
    runApp inp fetch = .icecatError ("Icecat error → " ++ msgStr payload.msg) ∧
    ∀ p : Page, runApp inp fetch ≠ .page p := by
  have h1 : runApp inp fetch = .icecatError ("Icecat error → " ++ msgStr payload.msg) := by
    unfold runApp
    rw [hf, hr]
    simp [hg, hm]
  refine ⟨h1, fun p hp => ?_⟩
  rw [h1] at hp
  exact Outcome.noConfusion hp

/-- C3 witness: an envelope with no `msg` key is rejected with the stringified
`None` in the displayed message. -/
theorem C3_envelope_rejection_witness :
    runApp
      { do_fetch := true, lang := "EN", gtin := "1",
        response := .success { msg := none, data := none } }
      (fun _ => []) = .icecatError "Icecat error → None" := by
  exact (C3_envelope_rejection
    { do_fetch := true, lang := "EN", gtin := "1",
      response := .success { msg := none, data := none } }
    (fun _ => []) { msg := none, data := none }
    rfl (by decide) rfl (by decide)).1

/-- C4: on a successful envelope, a `GeneralInfo` lacking `ProductName` aborts
the pass with an uncaught `KeyError` on that key; with `ProductName` present
but `Brand` absent it aborts on `Brand`; an absent `BrandPartCode` does not
fail and is rendered as the empty string. -/
theorem C4_required_fields (inp : AppInput) (fetch : String → List Nat)
    (payload : Payload) (data : ProductData) (info : GeneralInfo)
    (hf : inp.do_fetch = true) (hg : inp.gtin ≠ "")
    (hr : inp.response = .success payload) (hm : payload.msg = some "OK")
    (hd : payload.data = some data) (hi : data.GeneralInfo = some info) :
    (info.ProductName = none → runApp inp fetch = .keyError "ProductName") ∧
    (info.Brand = none → ∀ pn, info.ProductName = some pn →
      runApp inp fetch = .keyError "Brand") ∧
    (info.BrandPartCode = none → ∀ p : Page, runApp inp fetch = .page p →
      p.vendorArticleNo = "") := by
  have hrun : runApp inp fetch = renderPage inp.gtin fetch info data := by
    unfold runApp
    rw [hf, hr]
    simp [hg, hm, hd, hi]
  refine ⟨?_, ?_, ?_⟩
  · intro hpn
    rw [hrun]
    unfold renderPage
    rw [hpn]
  · intro hb pn hpn
    rw [hrun]
    unfold renderPage
    rw [hpn, hb]
  · intro hbpc p hp
    rw [hrun] at hp
    unfold renderPage at hp
    cases hpn : info.ProductName with
    | none => rw [hpn] at hp; exact Outcome.noConfusion hp
    | some pn =>
      cases hbr : info.Brand with
      | none => rw [hpn, hbr] at hp; exact Outcome.noConfusion hp
      | some b =>
        rw [hpn, hbr] at hp
        have hrec := Outcome.page.inj hp
        rw [← hrec]
        simp [hbpc]

/-- C4 witness: a payload whose `GeneralInfo` lacks `ProductName` aborts with
the `ProductName` key error. -/
theorem C4_required_fields_witness :
    runApp
      { do_fetch := true, lang := "EN", gtin := "1",
        response := .success
          { msg := some "OK",
            data := some
              { GeneralInfo := some
                  { ProductName := none, Brand := some "B", BrandPartCode := none,
                    SummaryDescription := none },
                Image := none, Gallery := none, Multimedia := none,
                FeaturesGroups := none } } }
      (fun _ => []) = .keyError "ProductName" := by
  exact (C4_required_fields _ _ _ _ _ rfl (by decide) rfl rfl rfl rfl).1 rfl

/-- C5: the processed gallery has at most `MAX_GALLERY` (20) entries, those
entries are exactly the leading entries of the payload's `Gallery` list in
payload order, and a payload supplying at least `MAX_GALLERY` entries is cut
to exactly `MAX_GALLERY`. -/
theorem C5_gallery_truncation (data : ProductData) :
    (galleryProcessed data).length ≤ MAX_GALLERY ∧
    galleryProcessed data ++ (data.Gallery.getD []).drop MAX_GALLERY =
      data.Gallery.getD [] ∧
    (MAX_GALLERY ≤ (data.Gallery.getD []).length →
      (galleryProcessed data).length = MAX_GALLERY) := by
  refine ⟨galleryProcessed_length_le data, List.take_append_drop _ _, ?_⟩
  intro h
  simp only [galleryProcessed, List.length_take]
  omega

/-- C5 witness: a 21-entry gallery is processed as exactly 20 entries. -/
theorem C5_gallery_truncation_witness :
    (galleryProcessed
      { GeneralInfo := none, Image := none,
        Gallery := some (List.replicate 21 { ThumbPic := "t", Pic := "p" }),
        Multimedia := none, FeaturesGroups := none }).length = MAX_GALLERY := by
  exact (C5_gallery_truncation _).2.2 (by decide)

/-- C6: when the processed gallery is non-empty, the rendered page offers a
ZIP bundle named `<GTIN>_images.zip` whose entries are the ZIP-loop output:
exactly one entry per processed gallery entry (hence at most `MAX_GALLERY`),
the i-th entry named by the path basename of the i-th full-size URL with
content the bytes fetched from that URL. -/
theorem C6_zip_bundle (gtin : String) (fetch : String → List Nat)
    (info : GeneralInfo) (data : ProductData) (p : Page)
    (hpage : renderPage gtin fetch info data = .page p)
    (hne : galleryProcessed data ≠ []) :
    p.zip = some (gtin ++ "_images.zip", zipOfGallery fetch (galleryProcessed data)) ∧
    (zipOfGallery fetch (galleryProcessed data)).length =
      (galleryProcessed data).length ∧
    (zipOfGallery fetch (galleryProcessed data)).length ≤ MAX_GALLERY ∧
    (∀ (i : Nat) (hi : i < (galleryProcessed data).length),
      ∃ hz : i < (zipOfGallery fetch (galleryProcessed data)).length,
        (zipOfGallery fetch (galleryProcessed data)).get ⟨i, hz⟩ =
          { name := pathName ((galleryProcessed data).get ⟨i, hi⟩).Pic,
            content := fetch ((galleryProcessed data).get ⟨i, hi⟩).Pic }) := by
  have hlen : (zipOfGallery fetch (galleryProcessed data)).length =
      (galleryProcessed data).length := by
    rw [zipOfGallery_eq_map]
    simp
  refine ⟨?_, hlen, ?_, ?_⟩
  · unfold renderPage at hpage
    cases hpn : info.ProductName with
    | none => rw [hpn] at hpage; exact Outcome.noConfusion hpage
    | some pn =>
      cases hbr : info.Brand with
      | none => rw [hpn, hbr] at hpage; exact Outcome.noConfusion hpage
      | some b =>
        rw [hpn, hbr] at hpage
        have hrec := Outcome.page.inj hpage
        rw [← hrec]
        simp [List.isEmpty_iff, hne]
  · rw [hlen]
    exact galleryProcessed_length_le data
  · intro i hi
    refine ⟨by rw [hlen]; exact hi, ?_⟩
    rw [List.get_eq_getElem, List.get_eq_getElem]
    simp [zipOfGallery_eq_map]

/-- C6 witness: a one-entry gallery yields a one-entry ZIP. -/
theorem C6_zip_bundle_witness :
    (zipOfGallery (fun _ => [9])
      (galleryProcessed
        { GeneralInfo := none, Image := none,
          Gallery := some [{ ThumbPic := "t", Pic := "https://img.example.com/a.jpg" }],
          Multimedia := none, FeaturesGroups := none })).length =
      (galleryProcessed
        { GeneralInfo := none, Image := none,
          Gallery := some [{ ThumbPic := "t", Pic := "https://img.example.com/a.jpg" }],
          Multimedia := none, FeaturesGroups := none }).length := by
  exact (C6_zip_bundle "123" (fun _ => [9])
    { ProductName := some "P", Brand := some "B", BrandPartCode := none,
      SummaryDescription := none }
    { GeneralInfo := none, Image := none,
      Gallery := some [{ ThumbPic := "t", Pic := "https://img.example.com/a.jpg" }],
      Multimedia := none, FeaturesGroups := none }
    _ rfl (by decide)).2.1

/-- C7: the spec table has one row per feature of each feature group (its
length is the sum of the group sizes), the rows are exactly the in-order
flattening of `(group name, feature name, presentation value)` triples, and
the table is rendered precisely when the row list is non-empty. -/
theorem C7_spec_table (data : ProductData) :
    (specRows data).length =
      ((data.FeaturesGroups.getD []).map (fun g => g.Features.length)).sum ∧
    specRows data =
      (data.FeaturesGroups.getD []).flatMap (fun grp =>
        grp.Features.map (fun feat =>
          (grp.FeatureGroup.Name.Value, feat.Feature.Name.Value,
            feat.PresentationValue))) ∧
    (specTableShown data = true ↔ specRows data ≠ []) := by
  refine ⟨?_, rfl, ?_⟩
  · simp [specRows, List.length_flatMap, Function.comp_def, List.length_map]
  · simp [specTableShown, List.isEmpty_iff]

/-- C8 (counterexample): with `Pic500x500` present but empty and a non-empty
`HighPic`, the hero rendered is the high-resolution variant, not the present
500×500 field the claim selects. -/
theorem C8_counterexample :
    heroRendered
      { Pic500x500 := some "", HighPic := some "https://img.example.com/high.jpg" }
      = some "https://img.example.com/high.jpg" ∧
    (some "https://img.example.com/high.jpg" : Option String) ≠ some "" := by
  exact ⟨rfl, by decide⟩

/-- C8 (amended): the hero image is the 500×500 variant when present and
non-empty; otherwise the high-resolution variant when present and non-empty;
otherwise nothing is rendered. -/
theorem C8_hero_selection (img : ImageData) :
    (∀ s, img.Pic500x500 = some s → s ≠ "" → heroRendered img = some s) ∧
    ((img.Pic500x500 = none ∨ img.Pic500x500 = some "") →
      ∀ s, img.HighPic = some s → s ≠ "" → heroRendered img = some s) ∧
    ((img.Pic500x500 = none ∨ img.Pic500x500 = some "") →
      (img.HighPic = none ∨ img.HighPic = some "") →
      heroRendered img = none) := by
  refine ⟨?_, ?_, ?_⟩
  · intro s hs hne
    simp [heroRendered, hero, pyOrOpt, pyTruthy, hs, hne]
  · rintro (h | h) s hs hne <;>
      simp [heroRendered, hero, pyOrOpt, pyTruthy, h, hs, hne]
  · rintro (h | h) (h2 | h2) <;>
      simp [heroRendered, hero, pyOrOpt, pyTruthy, h, h2]

/-- C8 witness: a non-empty 500×500 variant is the hero. -/
theorem C8_hero_selection_witness :
    heroRendered
      { Pic500x500 := some "https://img.example.com/500.jpg", HighPic := none }
      = some "https://img.example.com/500.jpg" :=
  (C8_hero_selection _).1 "https://img.example.com/500.jpg" rfl (by decide)

/-- C9: a submitted pass with an empty GTIN halts at the warning and issues no
network call at all. -/
theorem C9_empty_gtin_guard (inp : AppInput) (fetch : String → List Nat)
    (hf : inp.do_fetch = true) (hg : inp.gtin = "") :
    runApp inp fetch = .emptyGtinWarning ∧ networkCalls inp fetch = [] := by
  constructor
  · unfold runApp
    rw [hf, hg]
    simp
  · unfold networkCalls
    rw [hf, hg]
    simp

/-- C9 witness: the empty-GTIN submission at a concrete input. -/
theorem C9_empty_gtin_guard_witness :
    runApp
      { do_fetch := true, lang := "EN", gtin := "",
        response := .netError "unreachable" } (fun _ => []) = .emptyGtinWarning ∧
    networkCalls
      { do_fetch := true, lang := "EN", gtin := "",
        response := .netError "unreachable" } (fun _ => []) = [] := by
  exact C9_empty_gtin_guard _ _ rfl rfl

/-- C10: on a successful envelope (`msg = "OK"`, `data` present) whose data
object lacks the `GeneralInfo` key, the pass aborts with an uncaught
`KeyError` on `GeneralInfo` and never shows the inline Icecat error message:
the `data["GeneralInfo"]` access sits outside the `try`/`except`. -/
theorem C10_generalinfo_outside_try (inp : AppInput) (fetch : String → List Nat)
    (payload : Payload) (data : ProductData)
    (hf : inp.do_fetch = true) (hg : inp.gtin ≠ "")
    (hr : inp.response = .success payload) (hm : payload.msg = some "OK")
    (hd : payload.data = some data) (hi : data.GeneralInfo = none) :
    runApp inp fetch = .keyError "GeneralInfo" ∧
    ∀ m : String, runApp inp fetch ≠ .icecatError m := by
  have h1 : runApp inp fetch = .keyError "GeneralInfo" := by
    unfold runApp
    rw [hf, hr]
    simp [hg, hm, hd, hi]
  refine ⟨h1, fun m hm2 => ?_⟩
  rw [h1] at hm2
  exact Outcome.noConfusion hm2

/-- C10 witness: a concrete successful envelope without `GeneralInfo`. -/
theorem C10_generalinfo_outside_try_witness :
    runApp
      { do_fetch := true, lang := "EN", gtin := "1",
        response := .success
          { msg := some "OK",
            data := some
              { GeneralInfo := none, Image := none, Gallery := none,
                Multimedia := none, FeaturesGroups := none } } }
      (fun _ => []) = .keyError "GeneralInfo" := by
  exact (C10_generalinfo_outside_try _ _ _ _ rfl (by decide) rfl rfl rfl rfl).1

end IcecatApp
